import Mathlib

/-!
Shallow embedding of the core of the blender-rsi-browser repository:
the HTTP/cache client `RSIApiWrapper` (src/rsi_lib.py), the OpenCTM
mesh importers (src/openctm/openctm.py and src/__init__.py), and the
axis fix-up (`flip_vertices`).

Modelling conventions:
- Python exceptions become the inductive `PyErr`; fallible code returns
  `Except PyErr α`.
- The network is a parameter: `NetGet` maps a full request URL to
  `some body` (success) or `none` (any transport failure / non-2xx,
  which `urllib` raises as an exception).  `NetPost` additionally takes
  the request body.  `NetPostJson` abstracts `_post_json`, i.e. the
  transport plus `json.loads`; `none` collapses both failure modes,
  which is faithful because every caller of `_post_json` in the source
  wraps both in the same handler.
- The on-disk cache is the explicit state `FS`: a flag for the cache
  root directory plus an association list path → contents.  File
  contents are `FData`: raw bytes/text, or a parsed JSON value (the
  source always round-trips cached JSON through `json.dumps`/`json.loads`,
  so storing the parsed value models the text file).
- Each cache-aware operation also returns the list of request URLs it
  fetched (its network trace), so that claims about "no network call"
  and "exactly one fetch" are statable.
- Strings standing for floats in the mesh container are modelled as
  `Int`: the axis fix-up only swaps and negates components, which is
  exact on IEEE floats, so nothing is lost.
-/

set_option autoImplicit false

namespace RSIBrowser

/-- JSON values, the shape handled by `json.loads`/`json.dumps`. -/
inductive JVal where
  | str (s : String)
  | num (n : Int)
  | bool (b : Bool)
  | arr (xs : List JVal)
  | obj (kvs : List (String × JVal))
  | null
deriving Repr, Inhabited

/-- The Python exception classes that appear in the source, plus
`formatError`, which is modelled from the spec: the spec's §7 taxonomy
names a dedicated `FormatError` for malformed mesh containers, but no
code under src ever defines or raises such a type (the decoder raises
`IOError`). -/
inductive PyErr where
  | rsiException (msg : String)
  | exception (msg : String)
  | ioError (msg : String)
  | typeError (msg : String)
  | keyError (msg : String)
  | indexError (msg : String)
  | valueError (msg : String)
  | formatError (msg : String)
deriving Repr, DecidableEq

/-- `str(e)` on a Python exception: its message. -/
def PyErr.str : PyErr → String
  | .rsiException m => m
  | .exception m => m
  | .ioError m => m
  | .typeError m => m
  | .keyError m => m
  | .indexError m => m
  | .valueError m => m
  | .formatError m => m

def PyErr.isRSIException : PyErr → Bool
  | .rsiException _ => true
  | _ => false

def PyErr.isIOError : PyErr → Bool
  | .ioError _ => true
  | _ => false

def PyErr.isFormatError : PyErr → Bool
  | .formatError _ => true
  | _ => false

/-- The error of a fallible result, if any. -/
def errOf {α : Type} : Except PyErr α → Option PyErr
  | .error e => some e
  | .ok _ => none

/-- Python `obj[key]` on a JSON value: `KeyError` when the key is
missing, `TypeError` when the value is not a dict. -/
def JVal.field : JVal → String → Except PyErr JVal
  | .obj kvs, k =>
    match kvs.find? (fun p => p.1 == k) with
    | some p => .ok p.2
    | none => .error (.keyError k)
  | _, _ => .error (.typeError "value is not subscriptable by string")

/-- Python `xs[i]` on a JSON value: `IndexError` when out of range,
`TypeError` when the value is not a list. -/
def JVal.index : JVal → Nat → Except PyErr JVal
  | .arr xs, i =>
    match xs.get? i with
    | some v => .ok v
    | none => .error (.indexError "list index out of range")
  | _, _ => .error (.typeError "value is not subscriptable by integer")

/-- Does this JSON object have the given key? -/
def JVal.hasField (j : JVal) (k : String) : Bool :=
  match j with
  | .obj kvs => kvs.any (fun p => p.1 == k)
  | _ => false

/-- A cached file's contents. -/
inductive FData where
  | raw (s : String)
  | json (j : JVal)
deriving Repr, Inhabited

/-- The cache directory tree: whether the cache root exists, and the
files under it (path → contents). -/
structure FS where
  rootExists : Bool
  files : List (String × FData)
deriving Repr, Inhabited

/-- `pathlib.Path.exists()` for a cache file. -/
def FS.existsPath (fs : FS) (p : String) : Bool :=
  fs.files.any (fun q => q.1 == p)

/-- `path.parent.mkdir(parents=True, exist_ok=True)` followed by
`write_bytes`/`write_text`: creates the cache root if needed and
overwrites the file. -/
def FS.write (fs : FS) (p : String) (d : FData) : FS :=
  ⟨true, (p, d) :: fs.files.filter (fun q => q.1 != p)⟩

/-- `read_bytes`/`read_text` on a cache file. -/
def FS.read (fs : FS) (p : String) : Option FData :=
  (fs.files.find? (fun q => q.1 == p)).map Prod.snd

/-- A filesystem with no cache root and no files. -/
def emptyFS : FS := ⟨false, []⟩

/-- The network seen by `urllib.request.urlopen` for GET requests:
full URL → response body, `none` for any transport failure. -/
def NetGet : Type := String → Option String

/-- The network for raw POST requests: URL and body → response body. -/
def NetPost : Type := String → String → Option String

/-- The network as seen through `_post_json`: URL and body → parsed
JSON, `none` when the transport or `json.loads` fails. -/
def NetPostJson : Type := String → String → Option JVal

/-- `urllib.parse.urlencode` (percent-encoding elided; every call site
in the claims passes the default empty dict, which encodes to ""). -/
def urlencode (params : List (String × String)) : String :=
  String.intercalate "&" (params.map (fun p => p.1 ++ "=" ++ p.2))

namespace RSIApiWrapper

/-- `self.cache_dir`, as initialised in `RSIApiWrapper.__init__`. -/
def cache_dir : String := "./cache"

/-- `RSIApiWrapper._get`: issues one GET to `url + "?" + urlencode(params)`
and wraps any failure in `RSIException("Error fetching {url}: {e}")`
(the interpolated cause is elided since `NetGet` abstracts the transport
exception).  Also returns the network trace: the one URL requested. -/
def _get (net : NetGet) (url : String) (params : List (String × String)) :
    Except PyErr String × List String :=
  let full := url ++ "?" ++ urlencode params
  match net full with
  | some body => (.ok body, [full])
  | none => (.error (.rsiException ("Error fetching " ++ url)), [full])

/-- `RSIApiWrapper._post`: issues one POST and wraps any failure in a
plain `Exception("Error fetching {url}: {e}")` — note: `Exception`,
not `RSIException`, exactly as in the source. -/
def _post (net : NetPost) (url : String) (data : String) :
    Except PyErr String × List String :=
  match net url data with
  | some body => (.ok body, [url])
  | none => (.error (.exception ("Error fetching " ++ url)), [url])

end RSIApiWrapper


namespace RSIApiWrapper

/-- The catalog endpoint used by `search`, `get_si`. -/
def graphql_url : String := "https://robertsspaceindustries.com/graphql"

/-- The GraphQL request template of `search` (the Python triple-quoted
literal; braces written with escapes). -/
def search_template : String :=
  "\n            [\n                \x7b\n                    \"operationName\": \"GetShipList\",\n                    \"variables\": \x7b\n                        \"query\": \x7b\n                            \"limit\": 20,\n                            \"ships\": \x7b\n                                \"name\": \"SHIP_NAME\"\n                            \x7d\n                        \x7d\n                    \x7d,\n                    \"query\": \"query GetShipList($query: SearchQuery!) \x7b\\n  store(name: \\\"pledge\\\", browse: true) \x7b\\n    search(query: $query) \x7b\\n      resources \x7b\\n        ...RSIShipFragment\\n        __typename\\n      \x7d\\n      __typename\\n    \x7d\\n    __typename\\n  \x7d\\n\x7d\\n\\nfragment RSIShipFragment on RSIShip \x7b\\n  title\\n  name\\n  url\\n  media \x7b\\n    thumbnail \x7b\\n      storeSmall\\n      __typename\\n    \x7d\\n    __typename\\n  \x7d\\n  __typename\\n\x7d\"\n                \x7d\n            ]"

/-- The request body of `search`: the template with SHIP_NAME replaced
by the query. -/
def search_data (query : String) : String :=
  search_template.replace "SHIP_NAME" query

/-- The GraphQL request template of `get_si` (the Python triple-quoted
literal; braces written with escapes). -/
def si_template : String :=
  "\n                            [\n                                \x7b\n                                    \"operationName\": \"GetShipList\",\n                                    \"variables\": \x7b\n                                        \"query\": \x7b\n                                            \"limit\": 20,\n                                            \"ships\": \x7b\n                                                \"name\": \"SHIP_NAME\"\n                                            \x7d\n                                        \x7d\n                                    \x7d,\n                                    \"query\": \"query GetShipList($query: SearchQuery!) \x7b\\n  store(name: \\\"pledge\\\", browse: true) \x7b\\n    search(query: $query) \x7b\\n      resources \x7b\\n        ...RSIShipFragment\\n        __typename\\n      \x7d\\n      __typename\\n    \x7d\\n    __typename\\n  \x7d\\n\x7d\\n\\nfragment RSIShipFragment on RSIShip \x7b\\n  title\\n  name\\n  url\\n  type\\n  focus\\n  msrp\\n  productionStatus\\n  purchasable\\n  minCrew\\n  maxCrew\\n  manufacturer \x7b\\n    name\\n    __typename\\n  \x7d\\n  imageComposer \x7b\\n    name\\n    url\\n    __typename\\n  \x7d\\n  media \x7b\\n    thumbnail \x7b\\n      slideshow\\n      storeSmall\\n      __typename\\n    \x7d\\n    __typename\\n  \x7d\\n  __typename\\n\x7d\"\n                                \x7d\n                            ]"

/-- The request body of `get_si`: the template with SHIP_NAME replaced
by the ship name. -/
def si_data (name : String) : String :=
  si_template.replace "SHIP_NAME" name

end RSIApiWrapper

namespace RSIApiWrapper

/-- The result-extraction path `resp[0]["data"]["store"]["search"]["resources"]`
shared by `search` and `get_si`. -/
def extractResources (resp : JVal) : Except PyErr JVal := do
  let first ← resp.index 0
  let d ← first.field "data"
  let st ← d.field "store"
  let se ← st.field "search"
  se.field "resources"

/-- One iteration of the result loop in `search`: the summary dict
`{"name": ship["name"], "title": ship["title"],
  "thumbnail": ship["media"]["thumbnail"]["storeSmall"],
  "url": ship["url"]}`, with the lookups in Python evaluation order. -/
def mkSummary (ship : JVal) : Except PyErr JVal := do
  let n ← ship.field "name"
  let t ← ship.field "title"
  let me ← ship.field "media"
  let th ← me.field "thumbnail"
  let ss ← th.field "storeSmall"
  let u ← ship.field "url"
  pure (JVal.obj [("name", n), ("title", t), ("thumbnail", ss), ("url", u)])

/-- The `for ship in ...: results.append(...)` loop of `search`:
builds the summaries in order, raising at the first ill-shaped item
(those exceptions are outside the try block, hence unwrapped). -/
def buildResults : List JVal → Except PyErr (List JVal)
  | [] => .ok []
  | ship :: rest => do
    let s ← mkSummary ship
    let others ← buildResults rest
    pure (s :: others)

/-- `RSIApiWrapper.search`: POSTs the search query (failures wrapped in
`RSIException("Error searching for {query}: {e}")`), then extracts the
resource list and builds one summary per resource.  The extraction and
the loop sit outside the try block in the source, so their exceptions
propagate unwrapped. -/
def search (netJ : NetPostJson) (query : String) : Except PyErr (List JVal) :=
  match netJ graphql_url (search_data query) with
  | none => .error (.rsiException ("Error searching for " ++ query))
  | some resp =>
    match extractResources resp with
    | .error e => .error e
    | .ok (JVal.arr rs) => buildResults rs
    | .ok _ => .error (.typeError "value is not iterable")

/-- The cache path `self.cache_dir / name / "ship_info.json"`. -/
def si_path (name : String) : String :=
  cache_dir ++ "/" ++ name ++ "/" ++ "ship_info.json"

/-- `RSIApiWrapper.get_si`: returns the cached record when the cache
file exists; otherwise POSTs the query, takes
`resp[0]["data"]["store"]["search"]["resources"][0]`, writes it to the
cache and re-reads it.  Every failure inside the download branch is
wrapped in `RSIException("Error downloading SI for #{name}: {e}")`. -/
def get_si (netJ : NetPostJson) (fs : FS) (name : String) :
    Except PyErr JVal × FS :=
  let cp := si_path name
  if fs.existsPath cp then
    match fs.read cp with
    | some (.json j) => (.ok j, fs)
    | some (.raw _) => (.error (.valueError "invalid json"), fs)
    | none => (.error (.ioError "No such file or directory"), fs)
  else
    match netJ graphql_url (si_data name) with
    | none =>
      (.error (.rsiException ("Error downloading SI for #" ++ name)), fs)
    | some resp =>
      match (do let rs ← extractResources resp; rs.index 0) with
      | .error e =>
        (.error (.rsiException
          ("Error downloading SI for #" ++ name ++ ": " ++ e.str)), fs)
      | .ok record =>
        let fs1 := fs.write cp (.json record)
        match fs1.read cp with
        | some (.json j) => (.ok j, fs1)
        | some (.raw _) => (.error (.valueError "invalid json"), fs1)
        | none => (.error (.ioError "No such file or directory"), fs1)

/-- The cache path `self.cache_dir / name / "thumbnail.jpg"`. -/
def thumbnail_path (name : String) : String :=
  cache_dir ++ "/" ++ name ++ "/" ++ "thumbnail.jpg"

/-- `RSIApiWrapper.get_thumbnail`: returns the cache path immediately
when the file exists (no fetch); otherwise GETs `url`, writes the bytes
and returns the path, wrapping failures in
`RSIException("Error downloading thumbnail for #{name}: {e}")`. -/
def get_thumbnail (net : NetGet) (fs : FS) (name : String) (url : String) :
    Except PyErr String × FS × List String :=
  let cp := thumbnail_path name
  if fs.existsPath cp then (.ok cp, fs, [])
  else
    match _get net url [] with
    | (.ok data, trace) => (.ok cp, fs.write cp (.raw data), trace)
    | (.error e, trace) =>
      (.error (.rsiException
        ("Error downloading thumbnail for #" ++ name ++ ": " ++ e.str)),
       fs, trace)

/-- The hard-coded model URL in `get_model` (the source's TODO notes it
should be found programmatically). -/
def model_url : String :=
  "https://robertsspaceindustries.com/media/kvt3bfwjb1cxwr/source/AEGIS_JAVELIN.ctm"

/-- The cache path `self.cache_dir / name / "model.ctm"`. -/
def model_path (name : String) : String :=
  cache_dir ++ "/" ++ name ++ "/" ++ "model.ctm"

/-- `RSIApiWrapper.get_model`: takes only the ship name (no URL
parameter).  Returns the cache path immediately when the file exists;
otherwise GETs the fixed `model_url`, writes the bytes and returns the
path, wrapping failures in
`RSIException("Error downloading model for #{name}: {e}")`. -/
def get_model (net : NetGet) (fs : FS) (name : String) :
    Except PyErr String × FS × List String :=
  let cp := model_path name
  if fs.existsPath cp then (.ok cp, fs, [])
  else
    match _get net model_url [] with
    | (.ok data, trace) => (.ok cp, fs.write cp (.raw data), trace)
    | (.error e, trace) =>
      (.error (.rsiException
        ("Error downloading model for #" ++ name ++ ": " ++ e.str)),
       fs, trace)

/-- `RSIApiWrapper.clear_cache`: `shutil.rmtree(self.cache_dir)`, which
removes the whole tree, or raises `FileNotFoundError` (an `OSError`,
Python's `IOError`) when the root does not exist. -/
def clear_cache (fs : FS) : Except PyErr FS :=
  if fs.rootExists then .ok ⟨false, []⟩
  else .error (.ioError ("No such file or directory: " ++ cache_dir))

end RSIApiWrapper

/-- Modelled from the spec: the OpenCTM C bindings
(`ctmNewContext`/`ctmLoad`/`ctmGetError`/`ctmGetInteger`/
`ctmGetFloatArray`/`ctmGetIntegerArray`, imported from
`openctm.bindings`, which is not under src).  A loaded parse context is
modelled as the container's advertised fields per spec sections 4.1
and 6: the internal error code after `ctmLoad`, the vertex count, the
flat vertex float array, the triangle count and the flat index array.
Floats are modelled as `Int` (no claim depends on fractional values). -/
structure CTMContainer where
  errCode : Nat
  vertexCount : Nat
  vertices : List Int
  triangleCount : Nat
  indices : List Nat
deriving Repr, DecidableEq

/-- Grouping of a flat array into consecutive triples, as done by
`reshape((-1, 3))` and by the indexed reads `flat[i*3 + k]`. -/
def group3 {α : Type} : List α → List (α × α × α)
  | a :: b :: c :: rest => (a, b, c) :: group3 rest
  | _ => []

/-- `np.fromiter(it, count=n)`: reads exactly `n` elements, raising
`ValueError` when the iterator is too short. -/
def fromiter {α : Type} (xs : List α) (count : Nat) : Except PyErr (List α) :=
  if count ≤ xs.length then .ok (xs.take count)
  else .error (.valueError "iterator too short")

/-- The `CTM` mesh object of src/openctm/openctm.py: vertex triples and
face-index triples. -/
structure CTM where
  vertices : List (Int × Int × Int)
  faces : List (Nat × Nat × Nat)
deriving Repr, DecidableEq

namespace OpenCTM

/-- `import_mesh` of src/openctm/openctm.py: raises
`IOError("Error loading file: ...")` when the container's error code is
non-zero; otherwise reads `3 * vertex_count` floats grouped into vertex
triples and `3 * triangle_count` integers grouped into face triples
(`ctmErrorString` is modelled as rendering the code). -/
def import_mesh (c : CTMContainer) : Except PyErr CTM :=
  if c.errCode ≠ 0 then
    .error (.ioError ("Error loading file: " ++ toString c.errCode))
  else
    match fromiter c.vertices (c.vertexCount * 3),
          fromiter c.indices (c.triangleCount * 3) with
    | .ok vflat, .ok iflat => .ok ⟨group3 vflat, group3 iflat⟩
    | .error e, _ => .error e
    | .ok _, .error e => .error e

end OpenCTM

/-- One row of `flip_vertices` (src/__init__.py): the assignment
`flipped[:, [1, 2]] = verts[:, [2, 1]] * [-1, 1]` sends a row
`(x, y, z)` to `(x, -z, y)`. -/
def flipVertex (v : Int × Int × Int) : Int × Int × Int :=
  (v.1, -v.2.2, v.2.1)

/-- `flip_vertices` of src/__init__.py (and, identically,
`CTM.flip_vertices_XY` of src/openctm/openctm.py): the row-wise axis
fix-up over the whole vertex array. -/
def flip_vertices (vs : List (Int × Int × Int)) : List (Int × Int × Int) :=
  vs.map flipVertex

namespace Addon

/-- Reading `count` triples by indexing `flat[i*3]`, `flat[i*3+1]`,
`flat[i*3+2]` for `i < count`, as the loop in src/__init__.py's
`import_mesh` does; out-of-range access raises `IndexError`. -/
def readTriples {α : Type} (flat : List α) (count : Nat) :
    Except PyErr (List (α × α × α)) :=
  if count * 3 ≤ flat.length then .ok (group3 (flat.take (count * 3)))
  else .error (.indexError "invalid index")

/-- `import_mesh` of src/__init__.py: same error check as the openctm
variant, then reads the vertex triples, applies `flip_vertices` exactly
once, reads the face triples, and returns the pair
`(vertices_, faces_)`.  (The source's `except RSIException` handler is
dead: nothing in the body raises `RSIException`.) -/
def import_mesh (c : CTMContainer) :
    Except PyErr (List (Int × Int × Int) × List (Nat × Nat × Nat)) :=
  if c.errCode ≠ 0 then
    .error (.ioError ("Error loading file: " ++ toString c.errCode))
  else
    match readTriples c.vertices c.vertexCount,
          readTriples c.indices c.triangleCount with
    | .ok verts, .ok faces => .ok (flip_vertices verts, faces)
    | .error e, _ => .error e
    | .ok _, .error e => .error e

end Addon

/-! Helper lemmas -/

theorem FS.existsPath_write (fs : FS) (p : String) (d : FData) :
    (fs.write p d).existsPath p = true := by
  simp [FS.write, FS.existsPath]

theorem urlencode_nil : urlencode [] = "" := rfl

theorem group3_length_of {α : Type} (n : Nat) :
    ∀ l : List α, l.length = 3 * n → (group3 l).length = n := by
  induction n with
  | zero =>
    intro l h
    cases l with
    | nil => rfl
    | cons a t => simp at h
  | succ n ih =>
    intro l h
    match l with
    | [] => simp at h
    | [a] => simp at h; omega
    | [a, b] => simp at h; omega
    | a :: b :: c :: rest =>
      have hr : rest.length = 3 * n := by simp at h; omega
      simpa [group3] using ih rest hr

theorem group3_mem {α : Type} :
    ∀ (l : List α) (t : α × α × α), t ∈ group3 l →
      t.1 ∈ l ∧ t.2.1 ∈ l ∧ t.2.2 ∈ l
  | a :: b :: c :: rest, t, h => by
    simp only [group3, List.mem_cons] at h
    rcases h with h | h
    · subst h; simp
    · have ht := group3_mem rest t h
      refine ⟨List.mem_cons_of_mem _ (List.mem_cons_of_mem _
        (List.mem_cons_of_mem _ ht.1)), ?_, ?_⟩
      · exact List.mem_cons_of_mem _ (List.mem_cons_of_mem _
          (List.mem_cons_of_mem _ ht.2.1))
      · exact List.mem_cons_of_mem _ (List.mem_cons_of_mem _
          (List.mem_cons_of_mem _ ht.2.2))
  | [], t, h => by simp [group3] at h
  | [a], t, h => by simp [group3] at h
  | [a, b], t, h => by simp [group3] at h

theorem buildResults_forall₂ :
    ∀ (rs l : List JVal), RSIApiWrapper.buildResults rs = .ok l →
      List.Forall₂ (fun ship s => RSIApiWrapper.mkSummary ship = .ok s) rs l := by
  intro rs
  induction rs with
  | nil =>
    intro l h
    simp only [RSIApiWrapper.buildResults] at h
    cases h
    exact List.Forall₂.nil
  | cons ship rest ih =>
    intro l h
    simp only [RSIApiWrapper.buildResults] at h
    cases hms : RSIApiWrapper.mkSummary ship with
    | error e => rw [hms] at h; simp [Bind.bind, Except.bind] at h
    | ok s =>
      rw [hms] at h
      cases hbr : RSIApiWrapper.buildResults rest with
      | error e => rw [hbr] at h; simp [Bind.bind, Except.bind] at h
      | ok others =>
        rw [hbr] at h
        simp [Bind.bind, Except.bind, pure, Except.pure] at h
        cases h
        exact List.Forall₂.cons hms (ih others hbr)

theorem exceptBind_ok {α β : Type} (a : α) (f : α → Except PyErr β) :
    ((Except.ok a : Except PyErr α) >>= f) = f a := rfl

theorem exceptBind_error {α β : Type} (e : PyErr) (f : α → Except PyErr β) :
    ((Except.error e : Except PyErr α) >>= f) = Except.error e := rfl

theorem mkSummary_fields (ship s : JVal)
    (h : RSIApiWrapper.mkSummary ship = .ok s) :
    s.field "name" = ship.field "name" ∧
    s.field "title" = ship.field "title" ∧
    s.field "thumbnail" =
      (do let me ← ship.field "media"
          let th ← me.field "thumbnail"
          th.field "storeSmall") ∧
    s.field "url" = ship.field "url" ∧
    s.hasField "id" = false := by
  simp only [RSIApiWrapper.mkSummary] at h
  cases hn : ship.field "name" with
  | error e => simp only [hn, exceptBind_error] at h; exact absurd h (by simp)
  | ok n =>
  simp only [hn, exceptBind_ok] at h
  cases ht : ship.field "title" with
  | error e => simp only [ht, exceptBind_error] at h; exact absurd h (by simp)
  | ok t =>
  simp only [ht, exceptBind_ok] at h
  cases hm : ship.field "media" with
  | error e => simp only [hm, exceptBind_error] at h; exact absurd h (by simp)
  | ok me =>
  simp only [hm, exceptBind_ok] at h
  cases hth : me.field "thumbnail" with
  | error e => simp only [hth, exceptBind_error] at h; exact absurd h (by simp)
  | ok th =>
  simp only [hth, exceptBind_ok] at h
  cases hss : th.field "storeSmall" with
  | error e => simp only [hss, exceptBind_error] at h; exact absurd h (by simp)
  | ok ss =>
  simp only [hss, exceptBind_ok] at h
  cases hu : ship.field "url" with
  | error e => simp only [hu, exceptBind_error] at h; exact absurd h (by simp)
  | ok u =>
  simp only [hu, exceptBind_ok, pure, Except.pure, Except.ok.injEq] at h
  subst h
  refine ⟨?_, ?_, ?_, ?_, ?_⟩
  · simp [JVal.field]
  · simp [JVal.field]
  · simp only [hth, exceptBind_ok, hss]
    simp [JVal.field]
  · simp [JVal.field]
  · simp [JVal.hasField]

/-! Concrete fixtures -/

/-- A network on which every GET succeeds with fixed bytes. -/
def okNet : NetGet := fun _ => some "CTMDATA"

/-- A network on which every GET fails. -/
def failNet : NetGet := fun _ => none

/-- A network on which every raw POST fails. -/
def failPost : NetPost := fun _ _ => none

/-- A search resource with all the fields the summary loop reads. -/
def ship1 : JVal :=
  JVal.obj [("name", JVal.str "Javelin"), ("title", JVal.str "Aegis Javelin"),
    ("media", JVal.obj [("thumbnail",
      JVal.obj [("storeSmall", JVal.str "https://cdn/t.jpg")])]),
    ("url", JVal.str "/pledge/ships/javelin")]

/-- The summary the search loop builds from `ship1`. -/
def summary1 : JVal :=
  JVal.obj [("name", JVal.str "Javelin"), ("title", JVal.str "Aegis Javelin"),
    ("thumbnail", JVal.str "https://cdn/t.jpg"),
    ("url", JVal.str "/pledge/ships/javelin")]

/-- A catalog response whose resource list is the given one. -/
def wrapResp (resources : List JVal) : JVal :=
  JVal.arr [JVal.obj [("data", JVal.obj [("store", JVal.obj [("search",
    JVal.obj [("resources", JVal.arr resources)])])])]]

def respOne : JVal := wrapResp [ship1]

def respEmpty : JVal := wrapResp []

/-- A JSON POST network answering every request with `respOne`. -/
def netOne : NetPostJson := fun _ _ => some respOne

/-- A JSON POST network answering every request with `respEmpty`. -/
def netEmpty : NetPostJson := fun _ _ => some respEmpty

/-- A container whose load error code is non-zero. -/
def badContainer : CTMContainer := ⟨1, 0, [], 0, []⟩

/-- A well-formed container with 2 vertices and 1 triangle. -/
def goodContainer : CTMContainer := ⟨0, 2, [1, 2, 3, 4, 5, 6], 1, [0, 1, 1]⟩

/-! Claim theorems -/

/-- C3: the axis fix-up maps every vertex (x, y, z) to (x, -z, y); in
particular (1, 2, 3) becomes (1, -3, 2); `flip_vertices` is the
row-wise map of this transform, and the addon's `import_mesh` applies
it exactly once to the vertices it reads (shown on a concrete
container). -/
theorem C3_axis_fixup :
    (∀ x y z : Int, flipVertex (x, y, z) = (x, -z, y)) ∧
    flipVertex (1, 2, 3) = (1, -3, 2) ∧
    (∀ vs : List (Int × Int × Int), flip_vertices vs = vs.map flipVertex) ∧
    Addon.import_mesh goodContainer =
      .ok (flip_vertices [(1, 2, 3), (4, 5, 6)], [(0, 1, 1)]) :=
  ⟨fun _ _ _ => rfl, rfl, fun _ => rfl, rfl⟩

/-- Well-formedness of a mesh container advertising N vertices and M
triangles: zero error code, flat arrays of the advertised lengths, and
the spec section 3 invariant that every face index < vertex count. -/
def WellFormed (c : CTMContainer) (N M : Nat) : Prop :=
  c.errCode = 0 ∧ c.vertexCount = N ∧ c.vertices.length = 3 * N ∧
  c.triangleCount = M ∧ c.indices.length = 3 * M ∧ ∀ i ∈ c.indices, i < N

/-- C4: for every well-formed container advertising N vertices and M
triangles, decode returns a mesh with exactly N vertex triples, exactly
M face-index triples, and every face index strictly less than N. -/
theorem C4_decode_counts (c : CTMContainer) (N M : Nat) (h : WellFormed c N M) :
    ∃ m : CTM, OpenCTM.import_mesh c = .ok m ∧ m.vertices.length = N ∧
      m.faces.length = M ∧ ∀ f ∈ m.faces, f.1 < N ∧ f.2.1 < N ∧ f.2.2 < N := by
  obtain ⟨he, hvN, hvl, htM, htl, hidx⟩ := h
  have h1 : c.vertexCount * 3 ≤ c.vertices.length := by omega
  have h2 : c.triangleCount * 3 ≤ c.indices.length := by omega
  refine ⟨⟨group3 (c.vertices.take (c.vertexCount * 3)),
           group3 (c.indices.take (c.triangleCount * 3))⟩, ?_, ?_, ?_, ?_⟩
  · simp [OpenCTM.import_mesh, he, fromiter, h1, h2]
  · apply group3_length_of
    rw [List.length_take]
    omega
  · apply group3_length_of
    rw [List.length_take]
    omega
  · intro f hf
    have hc := group3_mem _ f hf
    exact ⟨hidx f.1 (List.take_subset _ _ hc.1),
           hidx f.2.1 (List.take_subset _ _ hc.2.1),
           hidx f.2.2 (List.take_subset _ _ hc.2.2)⟩

/-- C4 witness: the theorem applied to the concrete well-formed
container with 2 vertices and 1 triangle. -/
theorem C4_decode_counts_witness :
    ∃ m : CTM, OpenCTM.import_mesh goodContainer = .ok m ∧
      m.vertices.length = 2 ∧ m.faces.length = 1 ∧
      ∀ f ∈ m.faces, f.1 < 2 ∧ f.2.1 < 2 ∧ f.2.2 < 2 :=
  C4_decode_counts goodContainer 2 1 ⟨rfl, rfl, rfl, rfl, rfl, by decide⟩

/-- C7 counterexample: on a container whose internal error code is
non-zero, decode fails with `IOError` — the same exception class the
cache layer uses — not with a dedicated `FormatError` type (no such
type exists in the source). -/
theorem C7_cex :
    OpenCTM.import_mesh badContainer =
      .error (PyErr.ioError "Error loading file: 1") ∧
    PyErr.isFormatError (PyErr.ioError "Error loading file: 1") = false :=
  ⟨rfl, rfl⟩

/-- C7 amended: on every container whose internal error code is
non-zero, decode fails with `IOError` carrying the underlying
code/message. -/
theorem C7_ioerror (c : CTMContainer) (h : c.errCode ≠ 0) :
    OpenCTM.import_mesh c =
      .error (PyErr.ioError ("Error loading file: " ++ toString c.errCode)) := by
  simp [OpenCTM.import_mesh, h]

/-- C7 witness: the amended theorem applied to the concrete bad
container. -/
theorem C7_ioerror_witness :
    OpenCTM.import_mesh badContainer =
      .error (PyErr.ioError
        ("Error loading file: " ++ toString badContainer.errCode)) :=
  C7_ioerror badContainer (by decide)

/-- C1 counterexample: `get_model` takes no URL argument, and on an
uncached name it does issue a network call (one GET to the fixed model
URL), so it does not return the cache path "without issuing any
network call regardless of whether the cached file exists". -/
theorem C1_cex :
    (RSIApiWrapper.get_model okNet emptyFS "Javelin").2.2 =
      [RSIApiWrapper.model_url ++ "?"] ∧
    [RSIApiWrapper.model_url ++ "?"] ≠ ([] : List String) :=
  ⟨rfl, by simp⟩

/-- C1 amended: `get_model` takes no URL argument at all; when the
cached model file exists it returns the cache path with no network
call, and when it does not, it issues exactly one GET (to the fixed
model URL). -/
theorem C1_get_model (net : NetGet) (fs : FS) (name : String) :
    (fs.existsPath (RSIApiWrapper.model_path name) = true →
      RSIApiWrapper.get_model net fs name =
        (.ok (RSIApiWrapper.model_path name), fs, [])) ∧
    (fs.existsPath (RSIApiWrapper.model_path name) = false →
      (RSIApiWrapper.get_model net fs name).2.2 =
        [RSIApiWrapper.model_url ++ "?"]) := by
  constructor
  · intro h
    simp [RSIApiWrapper.get_model, h]
  · intro h
    cases hnet : net (RSIApiWrapper.model_url ++ "?") with
    | none =>
      simp [RSIApiWrapper.get_model, RSIApiWrapper._get, h, urlencode_nil,
        String.append_empty, hnet]
    | some b =>
      simp [RSIApiWrapper.get_model, RSIApiWrapper._get, h, urlencode_nil,
        String.append_empty, hnet]

/-- C1 witness: the amended theorem applied on a cached and an uncached
concrete state. -/
theorem C1_get_model_witness :
    RSIApiWrapper.get_model okNet
        (emptyFS.write (RSIApiWrapper.model_path "X") (.raw "CTMDATA")) "X" =
      (.ok (RSIApiWrapper.model_path "X"),
       emptyFS.write (RSIApiWrapper.model_path "X") (.raw "CTMDATA"), []) ∧
    (RSIApiWrapper.get_model okNet emptyFS "X").2.2 =
      [RSIApiWrapper.model_url ++ "?"] :=
  ⟨(C1_get_model okNet
      (emptyFS.write (RSIApiWrapper.model_path "X") (.raw "CTMDATA")) "X").1
      (by rfl),
   (C1_get_model okNet emptyFS "X").2 (by rfl)⟩

/-- C2 counterexample: a failing POST raises a plain `Exception`, not
the single wrapper type `RSIException`, so the POST path violates the
claim. -/
theorem C2_cex :
    (RSIApiWrapper._post failPost
        "https://robertsspaceindustries.com/graphql" "x").1 =
      .error (PyErr.exception
        "Error fetching https://robertsspaceindustries.com/graphql") ∧
    PyErr.isRSIException (PyErr.exception
      "Error fetching https://robertsspaceindustries.com/graphql") = false :=
  ⟨rfl, rfl⟩

/-- C2 amended: every failing GET raises `RSIException` carrying the
URL, while every failing POST raises a plain `Exception` carrying the
URL; in neither case does the caller observe the underlying transport
exception type. -/
theorem C2_wrap_errors (netG : NetGet) (netP : NetPost)
    (url data : String) (params : List (String × String))
    (hg : netG (url ++ "?" ++ urlencode params) = none)
    (hp : netP url data = none) :
    (RSIApiWrapper._get netG url params).1 =
      .error (PyErr.rsiException ("Error fetching " ++ url)) ∧
    (RSIApiWrapper._post netP url data).1 =
      .error (PyErr.exception ("Error fetching " ++ url)) := by
  constructor
  · simp [RSIApiWrapper._get, hg]
  · simp [RSIApiWrapper._post, hp]

/-- C2 witness: the amended theorem applied to an all-failing network
at a concrete URL. -/
theorem C2_wrap_errors_witness :
    (RSIApiWrapper._get failNet "https://u" []).1 =
      .error (PyErr.rsiException "Error fetching https://u") ∧
    (RSIApiWrapper._post failPost "https://u" "x").1 =
      .error (PyErr.exception "Error fetching https://u") :=
  C2_wrap_errors failNet failPost "https://u" "x" [] rfl rfl

/-- C5: with the thumbnail for the name not yet cached and the URL
fetchable, calling `get_thumbnail` twice with the same name and URL
performs exactly one network fetch in total: the first call fetches
once, writes the file and returns the cache path; the second call
returns the identical path with an empty network trace and the state
unchanged. -/
theorem C5_thumbnail_idempotent (net : NetGet) (fs : FS)
    (name url data : String)
    (hmiss : fs.existsPath (RSIApiWrapper.thumbnail_path name) = false)
    (hnet : net (url ++ "?") = some data) :
    RSIApiWrapper.get_thumbnail net fs name url =
      (.ok (RSIApiWrapper.thumbnail_path name),
       fs.write (RSIApiWrapper.thumbnail_path name) (.raw data),
       [url ++ "?"]) ∧
    RSIApiWrapper.get_thumbnail net
        (fs.write (RSIApiWrapper.thumbnail_path name) (.raw data)) name url =
      (.ok (RSIApiWrapper.thumbnail_path name),
       fs.write (RSIApiWrapper.thumbnail_path name) (.raw data),
       []) := by
  constructor
  · simp [RSIApiWrapper.get_thumbnail, RSIApiWrapper._get, hmiss,
      urlencode_nil, String.append_empty, hnet]
  · simp [RSIApiWrapper.get_thumbnail, FS.existsPath_write]

/-- C5 witness: the theorem applied to the empty cache and a network
that serves the thumbnail. -/
theorem C5_thumbnail_idempotent_witness :
    RSIApiWrapper.get_thumbnail okNet emptyFS "Javelin" "https://cdn/t.jpg" =
      (.ok (RSIApiWrapper.thumbnail_path "Javelin"),
       emptyFS.write (RSIApiWrapper.thumbnail_path "Javelin") (.raw "CTMDATA"),
       ["https://cdn/t.jpg" ++ "?"]) ∧
    RSIApiWrapper.get_thumbnail okNet
        (emptyFS.write (RSIApiWrapper.thumbnail_path "Javelin") (.raw "CTMDATA"))
        "Javelin" "https://cdn/t.jpg" =
      (.ok (RSIApiWrapper.thumbnail_path "Javelin"),
       emptyFS.write (RSIApiWrapper.thumbnail_path "Javelin") (.raw "CTMDATA"),
       []) :=
  C5_thumbnail_idempotent okNet emptyFS "Javelin" "https://cdn/t.jpg" "CTMDATA"
    rfl rfl

/-- C6: `clear_cache` on a state without the cache root fails with
`IOError`; after any successful write (which creates the root),
`clear_cache` succeeds with the empty tree, and on that tree the
presence check is false for every entity id and resource kind path. -/
theorem C6_clear_cache (fs fs0 : FS) (p : String) (d : FData)
    (hroot : fs.rootExists = false) :
    RSIApiWrapper.clear_cache fs =
      .error (PyErr.ioError
        ("No such file or directory: " ++ RSIApiWrapper.cache_dir)) ∧
    RSIApiWrapper.clear_cache (fs0.write p d) = .ok emptyFS ∧
    ∀ name kind : String,
      emptyFS.existsPath
        (RSIApiWrapper.cache_dir ++ "/" ++ name ++ "/" ++ kind) = false := by
  refine ⟨?_, ?_, ?_⟩
  · simp [RSIApiWrapper.clear_cache, hroot]
  · simp [RSIApiWrapper.clear_cache, FS.write, emptyFS]
  · intro name kind
    simp [emptyFS, FS.existsPath]

/-- C6 witness: the theorem applied to the empty filesystem and a
concrete thumbnail write. -/
theorem C6_clear_cache_witness :
    RSIApiWrapper.clear_cache emptyFS =
      .error (PyErr.ioError
        ("No such file or directory: " ++ RSIApiWrapper.cache_dir)) ∧
    RSIApiWrapper.clear_cache
        (emptyFS.write (RSIApiWrapper.thumbnail_path "X") (.raw "JPEG")) =
      .ok emptyFS ∧
    ∀ name kind : String,
      emptyFS.existsPath
        (RSIApiWrapper.cache_dir ++ "/" ++ name ++ "/" ++ kind) = false :=
  C6_clear_cache emptyFS emptyFS (RSIApiWrapper.thumbnail_path "X")
    (.raw "JPEG") rfl

/-- C9: for every two uncached names, `get_model` issues its single GET
to the one fixed constant URL, which does not depend on the name: both
network traces are the same one-element list. -/
theorem C9_fixed_model_url (net : NetGet) (fs : FS) (n1 n2 : String)
    (h1 : fs.existsPath (RSIApiWrapper.model_path n1) = false)
    (h2 : fs.existsPath (RSIApiWrapper.model_path n2) = false) :
    (RSIApiWrapper.get_model net fs n1).2.2 =
      [RSIApiWrapper.model_url ++ "?"] ∧
    (RSIApiWrapper.get_model net fs n1).2.2 =
      (RSIApiWrapper.get_model net fs n2).2.2 := by
  have tr : ∀ n : String, fs.existsPath (RSIApiWrapper.model_path n) = false →
      (RSIApiWrapper.get_model net fs n).2.2 =
        [RSIApiWrapper.model_url ++ "?"] := by
    intro n hn
    cases hnet : net (RSIApiWrapper.model_url ++ "?") with
    | none =>
      simp [RSIApiWrapper.get_model, RSIApiWrapper._get, hn, urlencode_nil,
        String.append_empty, hnet]
    | some b =>
      simp [RSIApiWrapper.get_model, RSIApiWrapper._get, hn, urlencode_nil,
        String.append_empty, hnet]
  exact ⟨tr n1 h1, (tr n1 h1).trans (tr n2 h2).symm⟩

/-- C9 witness: the theorem applied to two distinct uncached names. -/
theorem C9_fixed_model_url_witness :
    (RSIApiWrapper.get_model okNet emptyFS "Javelin").2.2 =
      [RSIApiWrapper.model_url ++ "?"] ∧
    (RSIApiWrapper.get_model okNet emptyFS "Javelin").2.2 =
      (RSIApiWrapper.get_model okNet emptyFS "Aurora").2.2 :=
  C9_fixed_model_url okNet emptyFS "Javelin" "Aurora" rfl rfl

/-- C10: when no detail record is cached for the name and the catalog
search response carries zero resources, `get_si` raises `RSIException`
(wrapping the `IndexError` from `resources[0]`) and leaves the cache
unchanged: no detail file is written. -/
theorem C10_get_si_empty (netJ : NetPostJson) (fs : FS) (name : String)
    (resp : JVal)
    (hmiss : fs.existsPath (RSIApiWrapper.si_path name) = false)
    (hnet : netJ RSIApiWrapper.graphql_url (RSIApiWrapper.si_data name) =
      some resp)
    (hempty : RSIApiWrapper.extractResources resp = .ok (JVal.arr [])) :
    RSIApiWrapper.get_si netJ fs name =
      (.error (PyErr.rsiException
        ("Error downloading SI for #" ++ name ++ ": list index out of range")),
       fs) := by
  simp [RSIApiWrapper.get_si, hmiss, hnet, hempty, exceptBind_ok, JVal.index,
    PyErr.str, String.append_assoc]

/-- C10 witness: the theorem applied to the empty cache and a network
whose search response lists zero resources. -/
theorem C10_get_si_empty_witness :
    RSIApiWrapper.get_si netEmpty emptyFS "Javelin" =
      (.error (PyErr.rsiException
        ("Error downloading SI for #" ++ "Javelin" ++
         ": list index out of range")),
       emptyFS) :=
  C10_get_si_empty netEmpty emptyFS "Javelin" respEmpty rfl rfl rfl

/-- C8 counterexample: on a response listing one resource, `search`
returns one summary whose keys are name, title, thumbnail and url —
the summary contains no id field, contrary to the claim. -/
theorem C8_cex :
    RSIApiWrapper.search netOne "Javelin" = .ok [summary1] ∧
    summary1.hasField "id" = false ∧
    summary1.hasField "name" = true :=
  ⟨rfl, rfl, rfl⟩

/-- C8 amended: for every search response listing k resources, each
carrying the fields the summary loop reads, `search` returns exactly k
summaries, the i-th containing the i-th resource's name, title,
thumbnail URL and detail-page URL — but no id field (the name acts as
the identifier). -/
theorem C8_search_summaries (netJ : NetPostJson) (query : String)
    (resp : JVal) (rs l : List JVal)
    (hnet : netJ RSIApiWrapper.graphql_url
      (RSIApiWrapper.search_data query) = some resp)
    (hres : RSIApiWrapper.extractResources resp = .ok (JVal.arr rs))
    (hok : RSIApiWrapper.search netJ query = .ok l) :
    l.length = rs.length ∧
    List.Forall₂ (fun ship s =>
      s.field "name" = ship.field "name" ∧
      s.field "title" = ship.field "title" ∧
      s.field "thumbnail" =
        (do let me ← ship.field "media"
            let th ← me.field "thumbnail"
            th.field "storeSmall") ∧
      s.field "url" = ship.field "url" ∧
      s.hasField "id" = false) rs l := by
  have hbr : RSIApiWrapper.buildResults rs = .ok l := by
    simpa [RSIApiWrapper.search, hnet, hres] using hok
  have hf := buildResults_forall₂ rs l hbr
  refine ⟨(List.Forall₂.length_eq hf).symm, ?_⟩
  exact hf.imp (fun a b hms => mkSummary_fields a b hms)

/-- C8 witness: the amended theorem applied to a concrete response
listing one fully populated resource. -/
theorem C8_search_summaries_witness :
    ([summary1] : List JVal).length = ([ship1] : List JVal).length ∧
    List.Forall₂ (fun ship s =>
      JVal.field s "name" = JVal.field ship "name" ∧
      JVal.field s "title" = JVal.field ship "title" ∧
      JVal.field s "thumbnail" =
        (do let me ← JVal.field ship "media"
            let th ← JVal.field me "thumbnail"
            JVal.field th "storeSmall") ∧
      JVal.field s "url" = JVal.field ship "url" ∧
      JVal.hasField s "id" = false) [ship1] [summary1] :=
  C8_search_summaries netOne "Javelin" respOne [ship1] [summary1] rfl rfl rfl

end RSIBrowser
